import Mathlib

/-!
Shallow embedding of the teseo library's serialization and default-population
core (Schema.org JSON-LD entities, OpenGraph / Twitter Card meta tags, the
URL-to-breadcrumb derivation and the sitemap codec), translated from the Go
source, together with theorems checking the specification's claims about it.

Go `string` is modelled as `String`, Go `int` as `Int`, Go pointers to nested
structs as `Option`, Go slices as `List`.  Methods that mutate their receiver
in place (`ensureDefaults`) are modelled as pure functions returning the
updated value.  External collaborators (the `net/url` parser, the `templ`
renderer, the file system) are modelled as inputs: the functions below take
the collaborator's result and are proved about for every such result.
-/

namespace Teseo

/-! ## Shared string primitives (Go standard library models) -/

/-- Model of Go `html.EscapeString` on a single rune: the five special
characters are replaced by their entities, every other rune is kept. -/
def goEscapeChar (c : Char) : String :=
  if c = '&' then "&amp;"
  else if c = Char.ofNat 39 then "&#39;"
  else if c = '<' then "&lt;"
  else if c = '>' then "&gt;"
  else if c = '"' then "&#34;"
  else String.mk [c]

/-- Model of Go `html.EscapeString`. -/
def goEscapeString (s : String) : String :=
  String.join (s.toList.map goEscapeChar)

/-- Model of Go `strings.Split(s, sep)` for a one-character separator, on
character lists: splitting the empty list yields one empty chunk, exactly as
`strings.Split("", "/") = [""]` in Go. -/
def splitCharList (sep : Char) : List Char → List (List Char)
  | [] => [[]]
  | c :: cs =>
    if c = sep then [] :: splitCharList sep cs
    else
      match splitCharList sep cs with
      | [] => [[c]]
      | chunk :: rest => (c :: chunk) :: rest

/-- Model of Go `strings.Split` with a one-character separator. -/
def goSplit (s : String) (sep : Char) : List String :=
  (splitCharList sep s.toList).map fun cs => String.mk cs

/-- Model of Go `strings.Trim(s, cutset)` for the one-character cutset:
removes every leading and trailing occurrence of `sep`. -/
def goTrim (s : String) (sep : Char) : String :=
  String.mk (((s.toList.dropWhile (· = sep)).reverse.dropWhile (· = sep)).reverse)

/-- Model of Go `strings.Join(elems, sep)`. -/
def goJoin (elems : List String) (sep : String) : String :=
  String.intercalate sep elems

/-- Model of Go `unicode.ToTitle` (the stdlib title-case table); it agrees
with upper-casing on the ASCII range used throughout this development. -/
def unicodeToTitle (c : Char) : Char := c.toUpper

/-- `toTitle` from `schemaorg/breadcrumblist.go`: maps only the first rune of
the string through the Unicode title-case table. -/
def toTitle (s : String) : String :=
  match s.toList with
  | [] => s
  | c :: rest => String.mk (unicodeToTitle c :: rest)

/-- `teseo.WriteMetaTag`: writes nothing for empty content, otherwise one
`meta` element; note that the attribute is always `property=`, for Twitter
cards as well. -/
def WriteMetaTag (property content : String) : String :=
  if content = "" then ""
  else
    "<meta property=\"" ++ goEscapeString property ++ "\" content=\"" ++
      goEscapeString content ++ "\" />"

/-! ## Schema.org: BreadcrumbList -/

/-- `schemaorg.ListItem`. -/
structure ListItem where
  type : String
  position : Int
  name : String
  item : String
deriving DecidableEq, Repr

/-- `schemaorg.BreadcrumbList`. -/
structure BreadcrumbList where
  context : String
  type : String
  itemListElement : List ListItem
deriving DecidableEq, Repr

/-- `BreadcrumbList.ensureDefaults`: fills context and type when empty, then
sets the `Type` of every list item to `"ListItem"` unconditionally. -/
def BreadcrumbList.ensureDefaults (bcl : BreadcrumbList) : BreadcrumbList :=
  let bcl := if bcl.context = "" then { bcl with context := "https://schema.org" } else bcl
  let bcl := if bcl.type = "" then { bcl with type := "BreadcrumbList" } else bcl
  { bcl with itemListElement :=
      bcl.itemListElement.map fun it => { it with type := "ListItem" } }

/-- A URL as parsed by Go's `net/url` (the external parser): the components
`createBreadcrumbListFromURL` reads. -/
structure ParsedURL where
  scheme : String
  host : String
  path : String
deriving DecidableEq, Repr

/-- `createBreadcrumbListFromURL` from `schemaorg/breadcrumblist.go`,
parametrised by the result of the external `url.Parse` call: a parse error is
propagated, otherwise the breadcrumb list is built from the trimmed path
segments, with the site root as first item. -/
def createBreadcrumbListFromURL (parsed : Except String ParsedURL) :
    Except String BreadcrumbList :=
  match parsed with
  | .error err => .error ("[createBreadcrumbListFromURL] invalid URL: " ++ err)
  | .ok parsedURL =>
    let segments := goSplit (goTrim parsedURL.path '/') '/'
    let baseURL := parsedURL.scheme ++ "://" ++ parsedURL.host
    let listItems : List ListItem :=
      [⟨"ListItem", 1, "Home", baseURL⟩] ++
        (if segments.length > 0 ∧ segments.headI ≠ "" then
          segments.enum.map fun pr =>
            ⟨"ListItem", (pr.1 : Int) + 2, toTitle pr.2,
              baseURL ++ "/" ++ goJoin (segments.take (pr.1 + 1)) "/"⟩
        else [])
    .ok ⟨"https://schema.org", "BreadcrumbList", listItems⟩

/-- The breadcrumb list the specification describes for a parsed URL: a
`Home` root item at position 1, then one item per path segment (none when the
path is wholly empty), with positions incrementing from 2, title-cased names
and cumulative URLs. -/
def breadcrumbListSpec (p : ParsedURL) : BreadcrumbList :=
  let base := p.scheme ++ "://" ++ p.host
  let trimmed := goTrim p.path '/'
  let segs : List String := if trimmed = "" then [] else goSplit trimmed '/'
  ⟨"https://schema.org", "BreadcrumbList",
    ⟨"ListItem", 1, "Home", base⟩ ::
      segs.enum.map fun pr =>
        ⟨"ListItem", (pr.1 : Int) + 2, toTitle pr.2,
          base ++ "/" ++ goJoin (segs.take (pr.1 + 1)) "/"⟩⟩

/-! ### Helper lemmas for the breadcrumb derivation -/

theorem splitCharList_ne_nil (sep : Char) (l : List Char) :
    splitCharList sep l ≠ [] := by
  cases l with
  | nil => simp [splitCharList]
  | cons c cs =>
    simp only [splitCharList]
    split
    · simp
    · split <;> simp

theorem splitCharList_cons_ne (sep c : Char) (cs : List Char) (h : c ≠ sep) :
    ∃ chunk rest, splitCharList sep (c :: cs) = (c :: chunk) :: rest := by
  simp only [splitCharList, if_neg h]
  rcases hs : splitCharList sep cs with _ | ⟨chunk, rest⟩
  · exact absurd hs (splitCharList_ne_nil sep cs)
  · exact ⟨chunk, rest, rfl⟩

theorem headI_dropWhile_not {p : Char → Prop} [DecidablePred p]
    (l : List Char) (h : l.dropWhile (fun c => decide (p c)) ≠ []) :
    ¬ p ((l.dropWhile (fun c => decide (p c))).headI) := by
  induction l with
  | nil => simp at h
  | cons c cs ih =>
    by_cases hc : p c
    · have : (c :: cs).dropWhile (fun c => decide (p c)) =
        cs.dropWhile (fun c => decide (p c)) := by
        simp [List.dropWhile, hc]
      rw [this] at h ⊢
      exact ih h
    · have : (c :: cs).dropWhile (fun c => decide (p c)) = c :: cs := by
        simp [List.dropWhile, hc]
      rw [this]
      simpa using hc

/-- The trimmed path starts with a non-separator character (when nonempty). -/
theorem goTrim_head_ne (s : String) (sep : Char)
    (h : (goTrim s sep).toList ≠ []) : (goTrim s sep).toList.headI ≠ sep := by
  unfold goTrim at h ⊢
  set d := s.toList.dropWhile (· = sep) with hd
  have hsplit : d.reverse.takeWhile (· = sep) ++ d.reverse.dropWhile (· = sep)
      = d.reverse := List.takeWhile_append_dropWhile _ _
  have hdrep : d = (d.reverse.dropWhile (· = sep)).reverse ++
      (d.reverse.takeWhile (· = sep)).reverse := by
    have h2 := congrArg List.reverse hsplit
    simp only [List.reverse_append, List.reverse_reverse] at h2
    exact h2.symm
  simp only [String.toList, String.data] at h ⊢
  set r := (d.reverse.dropWhile (· = sep)).reverse with hr
  have hrne : r ≠ [] := by
    intro hcon
    apply h
    simp [hcon]
  have hdne : d ≠ [] := by
    intro hcon
    apply hrne
    rw [hr, hcon]
    simp
  have hhead : r.headI = d.headI := by
    rw [hdrep]
    rcases r with _ | ⟨a, as⟩
    · exact absurd rfl hrne
    · simp
  have hdh : ¬ (d.headI = sep) := by
    have := headI_dropWhile_not (p := fun c => c = sep) s.toList
    simp only [decide_eq_true_eq] at this
    rw [← hd] at this
    exact this hdne
  intro hcon
  exact hdh (by rw [← hhead]; simpa using hcon)

theorem string_mk_cons_ne_empty (c : Char) (cs : List Char) :
    String.mk (c :: cs) ≠ "" := by
  intro h
  have : (String.mk (c :: cs)).data = ("" : String).data := by rw [h]
  simp at this

/-- First chunk of the split of a nonempty string whose first character is
not the separator: it is nonempty. -/
theorem goSplit_headI_ne_empty (t : String) (sep : Char)
    (hne : t.toList ≠ []) (hhead : t.toList.headI ≠ sep) :
    (goSplit t sep).headI ≠ "" := by
  rcases ht : t.toList with _ | ⟨c, cs⟩
  · exact absurd ht hne
  · have hc : c ≠ sep := by
      rw [ht] at hhead
      simpa using hhead
    obtain ⟨chunk, rest, hs⟩ := splitCharList_cons_ne sep c cs hc
    unfold goSplit
    rw [ht, hs]
    simpa using string_mk_cons_ne_empty c chunk

theorem goSplit_ne_nil (t : String) (sep : Char) : goSplit t sep ≠ [] := by
  unfold goSplit
  simpa using splitCharList_ne_nil sep t.toList

/-- Auxiliary: a string equals its trimmed form viewed through `String.mk`
and `toList` (used to transport head facts). -/
theorem goTrim_eq_empty_iff (s : String) (sep : Char) :
    goTrim s sep = "" ↔ (goTrim s sep).toList = [] := by
  constructor
  · intro h; rw [h]; rfl
  · intro h
    have heq : goTrim s sep = String.mk (goTrim s sep).toList := rfl
    rw [heq, h]

/-! ## Schema.org: SiteNavigationElement and the sitemap codec -/

/-- `schemaorg.ItemListElement`. -/
structure ItemListElement where
  type : String
  name : String
  url : String
  position : Int
deriving DecidableEq, Repr

/-- `schemaorg.ItemList`. -/
structure ItemList where
  context : String
  type : String
  itemListElement : List ItemListElement
deriving DecidableEq, Repr

/-- `schemaorg.SiteNavigationElement`; the nested `*ItemList` pointer is an
`Option`. -/
structure SiteNavigationElement where
  context : String
  type : String
  name : String
  url : String
  position : Int
  identifier : String
  itemList : Option ItemList
deriving DecidableEq, Repr

/-- `SiteNavigationElement.ensureDefaults`: fills context, type and position
when at their zero values; when the nested item list is present and nonempty
it is rebuilt with the fixed context and type (its elements kept). -/
def SiteNavigationElement.ensureDefaults (sne : SiteNavigationElement) :
    SiteNavigationElement :=
  let sne := if sne.context = "" then { sne with context := "https://schema.org" } else sne
  let sne := if sne.type = "" then { sne with type := "SiteNavigationElement" } else sne
  let sne := if sne.position = 0 then { sne with position := 1 } else sne
  match sne.itemList with
  | some il =>
    if il.itemListElement.length > 0 then
      { sne with itemList := some ⟨"https://schema.org", "ItemList", il.itemListElement⟩ }
    else sne
  | none => sne

/-- `schemaorg.XMLSitemapUrl`. -/
structure XMLSitemapUrl where
  loc : String
  priority : String
deriving DecidableEq, Repr

/-- `schemaorg.XMLSitemap`. -/
structure XMLSitemap where
  xmlns : String
  urls : List XMLSitemapUrl
deriving DecidableEq, Repr

/-- `SiteNavigationElement.ToSitemapFile`, up to the XML value written to the
file: a nil item list is an error; otherwise every item becomes a `url` entry
carrying its URL as `loc` and the fixed priority `0.5`. -/
def SiteNavigationElement.ToSitemapFile (s : SiteNavigationElement) :
    Except String XMLSitemap :=
  match s.itemList with
  | none => .error "ItemList is nil, cannot generate sitemap"
  | some il =>
    .ok ⟨"http://www.sitemaps.org/schemas/sitemap/0.9",
      il.itemListElement.map fun item => ⟨item.url, "0.5"⟩⟩

/-- `SiteNavigationElement.FromSitemapFile`, applied to the XML value parsed
from the file: context and type are set to the fixed constants and the item
list is rebuilt from the `loc` entries, each item getting the constant type
`"SiteNavigationElement"`, an empty name, and a position assigned by input
order starting at 1. -/
def SiteNavigationElement.FromSitemapFile (s : SiteNavigationElement)
    (sitemap : XMLSitemap) : SiteNavigationElement :=
  { s with
    context := "https://schema.org",
    type := "SiteNavigationElement",
    itemList := some ⟨"https://schema.org", "ItemList",
      sitemap.urls.enum.map fun pr =>
        ⟨"SiteNavigationElement", "", pr.2.loc, (pr.1 : Int) + 1⟩⟩ }

/-! ## Twitter Card -/

/-- `twittercard.TwitterCard`; the `TwitterCardType` discriminator is a
string (`"summary"`, `"summary_large_image"`, `"app"`, `"player"`). -/
structure TwitterCard where
  card : String
  title : String
  description : String
  image : String
  site : String
  creator : String
  appID : String
  playerURL : String
deriving DecidableEq, Repr

/-- `TwitterCard.ensureDefaults`: an empty card type defaults to
`"summary"`. -/
def TwitterCard.ensureDefaults (tc : TwitterCard) : TwitterCard :=
  if tc.card = "" then { tc with card := "summary" } else tc

/-- `TwitterCard.metaTags`: the ordered name/content candidate pairs; image
and site are appended when nonempty, creator only for the two summary
variants, app id only for the app variant, player URL only for the player
variant. -/
def TwitterCard.metaTags (tc : TwitterCard) : List (String × String) :=
  [("twitter:card", tc.card),
   ("twitter:title", tc.title),
   ("twitter:description", tc.description)] ++
  (if tc.image ≠ "" then [("twitter:image", tc.image)] else []) ++
  (if tc.site ≠ "" then [("twitter:site", tc.site)] else []) ++
  (if tc.creator ≠ "" ∧ (tc.card = "summary" ∨ tc.card = "summary_large_image")
    then [("twitter:creator", tc.creator)] else []) ++
  (if tc.appID ≠ "" ∧ tc.card = "app"
    then [("twitter:app:id:iphone", tc.appID)] else []) ++
  (if tc.playerURL ≠ "" ∧ tc.card = "player"
    then [("twitter:player", tc.playerURL)] else [])

/-- The pair sequence actually emitted by `TwitterCard.ToMetaTags`'s
component: defaults applied, then every candidate with nonempty content is
written in order. -/
def TwitterCard.emittedTags (tc : TwitterCard) : List (String × String) :=
  (tc.ensureDefaults).metaTags.filter fun tag => tag.2 ≠ ""

/-- The text written by `TwitterCard.ToMetaTags`: each candidate with
nonempty content rendered through `teseo.WriteMetaTag`. -/
def TwitterCard.ToMetaTags (tc : TwitterCard) : String :=
  String.join ((tc.ensureDefaults).metaTags.map fun tag =>
    if tag.2 ≠ "" then WriteMetaTag tag.1 tag.2 else "")

/-! ## Render-to-string wrappers and their failure behavior -/

/-- Outcome of a Go call that either returns a value/error pair or tears the
process down through `log.Fatalf`. -/
inductive GoCall (α : Type) where
  | returns (val : α) (err : Option String)
  | fatal (msg : String)
deriving DecidableEq, Repr

/-- `TwitterCard.ToGoHTMLMetaTags`, parametrised by the result of the
external `templ.ToGoHTML` render: on success the HTML is returned with a nil
error, on render failure the code calls `log.Fatalf` (process exit). -/
def TwitterCard.ToGoHTMLMetaTags (tc : TwitterCard)
    (render : Except String String) : GoCall String :=
  let _ := tc.ensureDefaults
  match render with
  | .ok html => .returns html none
  | .error e => .fatal ("failed to convert to html: " ++ e)

/-- `BreadcrumbList.ToGoHTMLJsonLd`, parametrised the same way: the error
branch is `log.Fatalf`, not an error return. -/
def BreadcrumbList.ToGoHTMLJsonLd (bcl : BreadcrumbList)
    (render : Except String String) : GoCall String :=
  let _ := bcl.ensureDefaults
  match render with
  | .ok html => .returns html none
  | .error e => .fatal ("failed to convert to html: " ++ e)

/-! ## OpenGraph: shared object and VideoMovie -/

/-- `opengraph.OpenGraphObject`, the embedded common fields. -/
structure OpenGraphObject where
  type : String
  title : String
  url : String
  description : String
  image : String
deriving DecidableEq, Repr

/-- `OpenGraphObject.ensureDefaults(defaultType)`. -/
def OpenGraphObject.ensureDefaults (og : OpenGraphObject) (defaultType : String) :
    OpenGraphObject :=
  if og.type = "" then { og with type := defaultType } else og

/-- `opengraph.VideoMovie` (`OpenGraphObject` embedded as a field). -/
structure VideoMovie where
  og : OpenGraphObject
  duration : String
  actorURLs : List String
  directorURL : String
  releaseDate : String
deriving DecidableEq, Repr

/-- `VideoMovie.ensureDefaults`. -/
def VideoMovie.ensureDefaults (vm : VideoMovie) : VideoMovie :=
  { vm with og := vm.og.ensureDefaults "video.movie" }

/-- `VideoMovie.metaTags`: the fixed candidate pairs, type first, with the
video-specific scalar fields after the shared ones.  The actor URL collection
is not part of this list. -/
def VideoMovie.metaTags (vm : VideoMovie) : List (String × String) :=
  [("og:type", "video.movie"),
   ("og:title", vm.og.title),
   ("og:url", vm.og.url),
   ("og:description", vm.og.description),
   ("og:image", vm.og.image),
   ("video:duration", vm.duration),
   ("video:director", vm.directorURL),
   ("video:release_date", vm.releaseDate)]

/-- The (property, content) pairs `VideoMovie.ToMetaTags`'s component writes,
in emission order: first the fixed candidates with nonempty content, then one
`video:actor` tag per nonempty actor URL, appended after all of them. -/
def VideoMovie.ToMetaTags (vm : VideoMovie) : List (String × String) :=
  let vm := vm.ensureDefaults
  (vm.metaTags.filter fun tag => tag.2 ≠ "") ++
    (vm.actorURLs.filter fun a => a ≠ "").map fun a => ("video:actor", a)

/-! ## Schema.org: Product and its JSON-LD string serializer -/

/-- `schemaorg.ImageObject`. -/
structure ImageObject where
  type : String
  url : String
deriving DecidableEq, Repr

/-- `ImageObject.ensureDefaults`. -/
def ImageObject.ensureDefaults (img : ImageObject) : ImageObject :=
  if img.type = "" then { img with type := "ImageObject" } else img

/-- `schemaorg.ContactPoint` (carried by `Organization`; it has no
`ensureDefaults` of its own). -/
structure ContactPoint where
  type : String
  telephone : String
  contactType : String
  areaServed : String
  availableLanguage : String
deriving DecidableEq, Repr

/-- `schemaorg.Organization`. -/
structure Organization where
  context : String
  type : String
  name : String
  url : String
  logo : Option ImageObject
  contactPoints : List ContactPoint
  sameAs : List String
deriving DecidableEq, Repr

/-- `Organization.ensureDefaults`. -/
def Organization.ensureDefaults (org : Organization) : Organization :=
  let org := if org.context = "" then { org with context := "https://schema.org" } else org
  let org := if org.type = "" then { org with type := "Organization" } else org
  { org with logo := org.logo.map ImageObject.ensureDefaults }

/-- `schemaorg.PostalAddress`. -/
structure PostalAddress where
  type : String
  streetAddress : String
  addressLocality : String
  addressRegion : String
  postalCode : String
  addressCountry : String
deriving DecidableEq, Repr

/-- `PostalAddress.ensureDefaults`. -/
def PostalAddress.ensureDefaults (addr : PostalAddress) : PostalAddress :=
  if addr.type = "" then { addr with type := "PostalAddress" } else addr

/-- `schemaorg.Person`. -/
structure Person where
  context : String
  type : String
  name : String
  url : String
  email : String
  image : Option ImageObject
  jobTitle : String
  worksFor : Option Organization
  sameAs : List String
  gender : String
  birthDate : String
  nationality : String
  telephone : String
  address : Option PostalAddress
  affiliation : Option Organization
deriving DecidableEq, Repr

/-- `Person.ensureDefaults`: fills context and type when empty and recurses
into the present nested objects. -/
def Person.ensureDefaults (p : Person) : Person :=
  let p := if p.context = "" then { p with context := "https://schema.org" } else p
  let p := if p.type = "" then { p with type := "Person" } else p
  { p with
    image := p.image.map ImageObject.ensureDefaults,
    worksFor := p.worksFor.map Organization.ensureDefaults,
    address := p.address.map PostalAddress.ensureDefaults,
    affiliation := p.affiliation.map Organization.ensureDefaults }

/-- `schemaorg.Brand`. -/
structure Brand where
  type : String
  name : String
deriving DecidableEq, Repr

/-- `Brand.ensureDefaults`. -/
def Brand.ensureDefaults (b : Brand) : Brand :=
  if b.type = "" then { b with type := "Brand" } else b

/-- `schemaorg.Offer`. -/
structure Offer where
  type : String
  url : String
  priceCurrency : String
  price : String
  availability : String
  itemCondition : String
deriving DecidableEq, Repr

/-- `Offer.ensureDefaults`. -/
def Offer.ensureDefaults (o : Offer) : Offer :=
  if o.type = "" then { o with type := "Offer" } else o

/-- `schemaorg.AggregateRating`; the Go `float64` rating value is modelled as
a rational. -/
structure AggregateRating where
  type : String
  ratingValue : ℚ
  reviewCount : Int
deriving DecidableEq, Repr

/-- `AggregateRating.ensureDefaults`. -/
def AggregateRating.ensureDefaults (ar : AggregateRating) : AggregateRating :=
  if ar.type = "" then { ar with type := "AggregateRating" } else ar

/-- `schemaorg.Rating`. -/
structure Rating where
  type : String
  ratingValue : ℚ
  bestRating : ℚ
deriving DecidableEq, Repr

/-- `Rating.ensureDefaults`. -/
def Rating.ensureDefaults (ra : Rating) : Rating :=
  if ra.type = "" then { ra with type := "Rating" } else ra

/-- `schemaorg.Review`. -/
structure Review where
  type : String
  author : Option Person
  datePublished : String
  reviewBody : String
  reviewRating : Option Rating
deriving DecidableEq, Repr

/-- `Review.ensureDefaults`. -/
def Review.ensureDefaults (r : Review) : Review :=
  let r := if r.type = "" then { r with type := "Review" } else r
  { r with
    author := r.author.map Person.ensureDefaults,
    reviewRating := r.reviewRating.map Rating.ensureDefaults }

/-- `schemaorg.Product`. -/
structure Product where
  context : String
  type : String
  name : String
  description : String
  image : List String
  sku : String
  brand : Option Brand
  offers : Option Offer
  category : String
  aggregateRating : Option AggregateRating
  review : List Review
deriving DecidableEq, Repr

/-- `Product.ensureDefaults`: fills context and type when empty and recurses
into the present nested objects and every review. -/
def Product.ensureDefaults (p : Product) : Product :=
  let p := if p.context = "" then { p with context := "https://schema.org" } else p
  let p := if p.type = "" then { p with type := "Product" } else p
  { p with
    brand := p.brand.map Brand.ensureDefaults,
    offers := p.offers.map Offer.ensureDefaults,
    aggregateRating := p.aggregateRating.map AggregateRating.ensureDefaults,
    review := p.review.map Review.ensureDefaults }

/-- Pads a decimal digit string with leading zeros to the given width. -/
def padLeftZeros (n : Nat) (s : String) : String :=
  String.mk (List.replicate (n - s.length) '0') ++ s

/-- Model of Go `fmt.Sprintf("%f", x)` on the rational model of a `float64`:
fixed six decimal places, rounding half away from zero. -/
def goFmtFloat6 (q : ℚ) : String :=
  let sign := if q < 0 then "-" else ""
  let scaled : ℤ := ⌊|q| * 1000000 + 1/2⌋
  sign ++ toString (scaled / 1000000) ++ "." ++
    padLeftZeros 6 (toString (scaled % 1000000))

/-- `writeProductDescription`: the chunk appended to the builder. -/
def writeProductDescription (p : Product) : String :=
  if p.description ≠ "" then
    "  \"description\": \"" ++ goEscapeString p.description ++ "\",\n"
  else ""

/-- `writeProductImages`. -/
def writeProductImages (p : Product) : String :=
  if p.image.length > 0 then
    "  \"image\": [" ++
      String.intercalate ", " (p.image.map fun img => "\"" ++ goEscapeString img ++ "\"") ++
      "],\n"
  else ""

/-- `writeProductSKU`. -/
def writeProductSKU (p : Product) : String :=
  if p.sku ≠ "" then "  \"sku\": \"" ++ goEscapeString p.sku ++ "\",\n" else ""

/-- `writeProductBrand`; note the brand object always carries `@type` and
`name`, whatever their values. -/
def writeProductBrand (p : Product) : String :=
  match p.brand with
  | some b =>
    "  \"brand\": \x7b\"@type\": \"Brand\", \"name\": \"" ++
      goEscapeString b.name ++ "\"\x7d,\n"
  | none => ""

/-- `writeProductOffers`; price and priceCurrency are written
unconditionally, the other offer fields only when nonempty. -/
def writeProductOffers (p : Product) : String :=
  match p.offers with
  | some o =>
    "  \"offers\": \x7b\"@type\": \"Offer\", \"price\": \"" ++
      goEscapeString o.price ++ "\", \"priceCurrency\": \"" ++
      goEscapeString o.priceCurrency ++ "\"" ++
      (if o.url ≠ "" then ", \"url\": \"" ++ goEscapeString o.url ++ "\"" else "") ++
      (if o.availability ≠ "" then
        ", \"availability\": \"" ++ goEscapeString o.availability ++ "\"" else "") ++
      (if o.itemCondition ≠ "" then
        ", \"itemCondition\": \"" ++ goEscapeString o.itemCondition ++ "\"" else "") ++
      "\x7d,\n"
  | none => ""

/-- `writeProductCategory`. -/
def writeProductCategory (p : Product) : String :=
  if p.category ≠ "" then
    "  \"category\": \"" ++ goEscapeString p.category ++ "\",\n"
  else ""

/-- `writeProductAggregateRating`. -/
def writeProductAggregateRating (p : Product) : String :=
  match p.aggregateRating with
  | some ar =>
    "  \"aggregateRating\": \x7b\"@type\": \"AggregateRating\", \"ratingValue\": " ++
      goFmtFloat6 ar.ratingValue ++ ", \"reviewCount\": " ++
      toString ar.reviewCount ++ "\x7d,\n"
  | none => ""

/-- One review element of the `review` array, as written by the loop body of
`writeProductReviews`. -/
def writeReviewChunk (r : Review) : String :=
  "\x7b\n" ++
  "    \"@type\": \"Review\", \"reviewBody\": \"" ++ goEscapeString r.reviewBody ++ "\"," ++
  "\"datePublished\": \"" ++ goEscapeString r.datePublished ++ "\"," ++
  (match r.author with
   | some a =>
     "    \"author\": \x7b\"@type\": \"Person\", \"name\": \"" ++
       goEscapeString a.name ++ "\"\x7d,\n"
   | none => "") ++
  (match r.reviewRating with
   | some rr =>
     "    \"reviewRating\": \x7b\"@type\": \"Rating\", \"ratingValue\": " ++
       goFmtFloat6 rr.ratingValue ++ ", \"bestRating\": " ++
       goFmtFloat6 rr.bestRating ++ "\x7d\n"
   | none => "") ++
  "\x7d"

/-- `writeProductReviews`. -/
def writeProductReviews (p : Product) : String :=
  if p.review.length > 0 then
    "  \"review\": [" ++
      String.intercalate ", " (p.review.map writeReviewChunk) ++ "],\n"
  else ""

/-- `Product.ToGoHTMLJsonLd`: defaults are applied first, then the script
block is assembled; `@context`, `@type` and crucially also `name` are written
unconditionally, the remaining fields through the conditional helpers. -/
def Product.ToGoHTMLJsonLd (p0 : Product) : String :=
  let p := p0.ensureDefaults
  "<script type=\"application/ld+json\">" ++ "\n\x7b\n" ++
  "  \"@context\": \"" ++ goEscapeString p.context ++ "\",\n" ++
  "  \"@type\": \"" ++ goEscapeString p.type ++ "\",\n" ++
  "  \"name\": \"" ++ goEscapeString p.name ++ "\",\n" ++
  writeProductDescription p ++
  writeProductImages p ++
  writeProductSKU p ++
  writeProductBrand p ++
  writeProductOffers p ++
  writeProductCategory p ++
  writeProductAggregateRating p ++
  writeProductReviews p ++
  "\x7d\n</script>"

/-! ## Characterization and idempotence helper lemmas -/

theorem fill_if_empty_idem (c dflt : String) :
    (if (if c = "" then dflt else c) = "" then dflt
      else (if c = "" then dflt else c)) = (if c = "" then dflt else c) := by
  split_ifs <;> simp_all

theorem option_map_idem {α : Type} (f : α → α) (hf : ∀ a, f (f a) = f a)
    (o : Option α) : (o.map f).map f = o.map f := by
  cases o <;> simp [hf]

theorem list_map_idem {α : Type} (f : α → α) (hf : ∀ a, f (f a) = f a)
    (l : List α) : (l.map f).map f = l.map f := by
  induction l <;> simp_all

theorem breadcrumbList_ensureDefaults_eq (bcl : BreadcrumbList) :
    bcl.ensureDefaults =
      ⟨if bcl.context = "" then "https://schema.org" else bcl.context,
       if bcl.type = "" then "BreadcrumbList" else bcl.type,
       bcl.itemListElement.map fun it => { it with type := "ListItem" }⟩ := by
  cases bcl
  simp only [BreadcrumbList.ensureDefaults]
  split_ifs <;> rfl

theorem siteNavigationElement_ensureDefaults_eq (sne : SiteNavigationElement) :
    sne.ensureDefaults =
      { sne with
        context := if sne.context = "" then "https://schema.org" else sne.context,
        type := if sne.type = "" then "SiteNavigationElement" else sne.type,
        position := if sne.position = 0 then 1 else sne.position,
        itemList := match sne.itemList with
          | none => none
          | some il =>
            if il.itemListElement.length > 0 then
              some ⟨"https://schema.org", "ItemList", il.itemListElement⟩
            else some il } := by
  obtain ⟨c, t, n, u, pos, i, il⟩ := sne
  cases il <;>
    · simp only [SiteNavigationElement.ensureDefaults]
      split_ifs <;> simp_all

theorem imageObject_ensureDefaults_idem (img : ImageObject) :
    img.ensureDefaults.ensureDefaults = img.ensureDefaults := by
  simp only [ImageObject.ensureDefaults]
  split_ifs <;> simp_all

theorem postalAddress_ensureDefaults_idem (addr : PostalAddress) :
    addr.ensureDefaults.ensureDefaults = addr.ensureDefaults := by
  simp only [PostalAddress.ensureDefaults]
  split_ifs <;> simp_all

theorem brand_ensureDefaults_idem (b : Brand) :
    b.ensureDefaults.ensureDefaults = b.ensureDefaults := by
  simp only [Brand.ensureDefaults]
  split_ifs <;> simp_all

theorem offer_ensureDefaults_idem (o : Offer) :
    o.ensureDefaults.ensureDefaults = o.ensureDefaults := by
  simp only [Offer.ensureDefaults]
  split_ifs <;> simp_all

theorem aggregateRating_ensureDefaults_idem (ar : AggregateRating) :
    ar.ensureDefaults.ensureDefaults = ar.ensureDefaults := by
  simp only [AggregateRating.ensureDefaults]
  split_ifs <;> simp_all

theorem rating_ensureDefaults_idem (ra : Rating) :
    ra.ensureDefaults.ensureDefaults = ra.ensureDefaults := by
  simp only [Rating.ensureDefaults]
  split_ifs <;> simp_all

theorem organization_ensureDefaults_eq (org : Organization) :
    org.ensureDefaults =
      { org with
        context := if org.context = "" then "https://schema.org" else org.context,
        type := if org.type = "" then "Organization" else org.type,
        logo := org.logo.map ImageObject.ensureDefaults } := by
  cases org
  simp only [Organization.ensureDefaults]
  split_ifs <;> rfl

theorem organization_ensureDefaults_idem (org : Organization) :
    org.ensureDefaults.ensureDefaults = org.ensureDefaults := by
  rw [organization_ensureDefaults_eq, organization_ensureDefaults_eq]
  simp only [fill_if_empty_idem, option_map_idem _ imageObject_ensureDefaults_idem]

theorem person_ensureDefaults_eq (p : Person) :
    p.ensureDefaults =
      { p with
        context := if p.context = "" then "https://schema.org" else p.context,
        type := if p.type = "" then "Person" else p.type,
        image := p.image.map ImageObject.ensureDefaults,
        worksFor := p.worksFor.map Organization.ensureDefaults,
        address := p.address.map PostalAddress.ensureDefaults,
        affiliation := p.affiliation.map Organization.ensureDefaults } := by
  cases p
  simp only [Person.ensureDefaults]
  split_ifs <;> rfl

theorem person_ensureDefaults_idem (p : Person) :
    p.ensureDefaults.ensureDefaults = p.ensureDefaults := by
  rw [person_ensureDefaults_eq, person_ensureDefaults_eq]
  simp only [fill_if_empty_idem,
    option_map_idem _ imageObject_ensureDefaults_idem,
    option_map_idem _ organization_ensureDefaults_idem,
    option_map_idem _ postalAddress_ensureDefaults_idem]

theorem review_ensureDefaults_eq (r : Review) :
    r.ensureDefaults =
      { r with
        type := if r.type = "" then "Review" else r.type,
        author := r.author.map Person.ensureDefaults,
        reviewRating := r.reviewRating.map Rating.ensureDefaults } := by
  cases r
  simp only [Review.ensureDefaults]
  split_ifs <;> rfl

theorem review_ensureDefaults_idem (r : Review) :
    r.ensureDefaults.ensureDefaults = r.ensureDefaults := by
  rw [review_ensureDefaults_eq, review_ensureDefaults_eq]
  simp only [fill_if_empty_idem,
    option_map_idem _ person_ensureDefaults_idem,
    option_map_idem _ rating_ensureDefaults_idem]

theorem product_ensureDefaults_eq (p : Product) :
    p.ensureDefaults =
      { p with
        context := if p.context = "" then "https://schema.org" else p.context,
        type := if p.type = "" then "Product" else p.type,
        brand := p.brand.map Brand.ensureDefaults,
        offers := p.offers.map Offer.ensureDefaults,
        aggregateRating := p.aggregateRating.map AggregateRating.ensureDefaults,
        review := p.review.map Review.ensureDefaults } := by
  cases p
  simp only [Product.ensureDefaults]
  split_ifs <;> rfl

theorem product_ensureDefaults_idem (p : Product) :
    p.ensureDefaults.ensureDefaults = p.ensureDefaults := by
  rw [product_ensureDefaults_eq, product_ensureDefaults_eq]
  simp only [fill_if_empty_idem,
    option_map_idem _ brand_ensureDefaults_idem,
    option_map_idem _ offer_ensureDefaults_idem,
    option_map_idem _ aggregateRating_ensureDefaults_idem,
    list_map_idem _ review_ensureDefaults_idem]

theorem fill_if_zero_idem (pos : Int) :
    (if (if pos = 0 then 1 else pos) = 0 then 1
      else (if pos = 0 then 1 else pos)) = (if pos = 0 then 1 else pos) := by
  split_ifs <;> omega

theorem breadcrumbList_ensureDefaults_idem (bcl : BreadcrumbList) :
    bcl.ensureDefaults.ensureDefaults = bcl.ensureDefaults := by
  rw [breadcrumbList_ensureDefaults_eq, breadcrumbList_ensureDefaults_eq]
  simp only [fill_if_empty_idem,
    list_map_idem (fun it : ListItem => { it with type := "ListItem" }) (fun it => rfl)]

theorem siteNavigationElement_ensureDefaults_idem (sne : SiteNavigationElement) :
    sne.ensureDefaults.ensureDefaults = sne.ensureDefaults := by
  rw [siteNavigationElement_ensureDefaults_eq, siteNavigationElement_ensureDefaults_eq]
  simp only [fill_if_empty_idem, fill_if_zero_idem]
  obtain ⟨c, t, n, u, pos, i, il⟩ := sne
  rcases il with _ | ⟨ilc, ilt, elems⟩
  · simp
  · rcases elems with _ | ⟨e, es⟩
    · simp
    · simp

theorem twitterCard_ensureDefaults_idem (tc : TwitterCard) :
    tc.ensureDefaults.ensureDefaults = tc.ensureDefaults := by
  simp only [TwitterCard.ensureDefaults]
  split_ifs <;> simp_all

theorem openGraphObject_ensureDefaults_idem (og : OpenGraphObject) (d : String) :
    (og.ensureDefaults d).ensureDefaults d = og.ensureDefaults d := by
  simp only [OpenGraphObject.ensureDefaults]
  split_ifs <;> simp_all

theorem videoMovie_ensureDefaults_idem (vm : VideoMovie) :
    vm.ensureDefaults.ensureDefaults = vm.ensureDefaults := by
  simp [VideoMovie.ensureDefaults, openGraphObject_ensureDefaults_idem]

/-! ## Claim theorems -/

/-- A breadcrumb list whose single item carries an explicitly-set non-zero
type discriminator. -/
def bclWithThingItem : BreadcrumbList :=
  ⟨"https://schema.org", "BreadcrumbList",
    [⟨"Thing", 5, "Gadgets", "https://example.com/gadgets"⟩]⟩

/-- C1 (counterexample): `BreadcrumbList.ensureDefaults` overwrites the
explicitly-set non-zero `Type` field `"Thing"` of a nested list item with
the constant `"ListItem"`, so `ensureDefaults` does not fill fields only
when they are at their zero value and does overwrite an explicitly-set
non-zero field. -/
theorem breadcrumb_ensureDefaults_overwrites_item_type :
    bclWithThingItem.itemListElement.map ListItem.type = ["Thing"] ∧
    bclWithThingItem.ensureDefaults.itemListElement.map ListItem.type = ["ListItem"] ∧
    bclWithThingItem.ensureDefaults ≠ bclWithThingItem := by
  refine ⟨rfl, rfl, ?_⟩
  decide

/-- C1 (amended): the vocabulary-context and type-discriminator strings of
the entity itself are filled exactly when empty and kept otherwise; but
`BreadcrumbList.ensureDefaults` sets every nested item's type to
`"ListItem"` unconditionally, and `SiteNavigationElement.ensureDefaults`
additionally fills `Position` with 1 when it is 0 and rebuilds a present,
nonempty nested `ItemList` with the constant context and type
unconditionally, while leaving a present-but-empty `ItemList` untouched. -/
theorem ensureDefaults_fill_characterization :
    (∀ bcl : BreadcrumbList,
      bcl.ensureDefaults =
        ⟨if bcl.context = "" then "https://schema.org" else bcl.context,
         if bcl.type = "" then "BreadcrumbList" else bcl.type,
         bcl.itemListElement.map fun it => { it with type := "ListItem" }⟩) ∧
    (∀ sne : SiteNavigationElement,
      sne.ensureDefaults =
        { sne with
          context := if sne.context = "" then "https://schema.org" else sne.context,
          type := if sne.type = "" then "SiteNavigationElement" else sne.type,
          position := if sne.position = 0 then 1 else sne.position,
          itemList := match sne.itemList with
            | none => none
            | some il =>
              if il.itemListElement.length > 0 then
                some ⟨"https://schema.org", "ItemList", il.itemListElement⟩
              else some il }) :=
  ⟨breadcrumbList_ensureDefaults_eq, siteNavigationElement_ensureDefaults_eq⟩

/-- C2: `ensureDefaults` is idempotent for every embedded entity: applying
it twice equals applying it once, for `BreadcrumbList`,
`SiteNavigationElement`, `Product` (with all its nested objects and
reviews), `TwitterCard`, `VideoMovie` and `Person`. -/
theorem ensureDefaults_idempotent :
    (∀ bcl : BreadcrumbList, bcl.ensureDefaults.ensureDefaults = bcl.ensureDefaults) ∧
    (∀ sne : SiteNavigationElement, sne.ensureDefaults.ensureDefaults = sne.ensureDefaults) ∧
    (∀ p : Product, p.ensureDefaults.ensureDefaults = p.ensureDefaults) ∧
    (∀ tc : TwitterCard, tc.ensureDefaults.ensureDefaults = tc.ensureDefaults) ∧
    (∀ vm : VideoMovie, vm.ensureDefaults.ensureDefaults = vm.ensureDefaults) ∧
    (∀ per : Person, per.ensureDefaults.ensureDefaults = per.ensureDefaults) :=
  ⟨breadcrumbList_ensureDefaults_idem, siteNavigationElement_ensureDefaults_idem,
   product_ensureDefaults_idem, twitterCard_ensureDefaults_idem,
   videoMovie_ensureDefaults_idem, person_ensureDefaults_idem⟩

/-- C4 (failing evaluation): serializing the all-zero `Product` through
`ToGoHTMLJsonLd` emits the key `"name"` with an empty value (between the
always-present `@context`/`@type` keys and the closing brace), although
`name` is an optional field at its zero value, tagged `omitempty` in the
struct declaration; the omit-empty contract therefore does not hold on this
serializer. -/
theorem product_jsonld_emits_empty_name :
    Product.ToGoHTMLJsonLd ⟨"", "", "", "", [], "", none, none, "", none, []⟩ =
      "<script type=\"application/ld+json\">\n\x7b\n  \"@context\": \"https://schema.org\",\n  \"@type\": \"Product\",\n  \"name\": \"\",\n\x7d\n</script>" := by
  rfl

/-- C6 (failing evaluation): the rendered Twitter meta tags use the
attribute `property=` — `teseo.WriteMetaTag` hardcodes `property=` and the
Twitter serializer calls it — although the card's documentation and the
specification say Twitter tags use `name=`. -/
theorem twitter_tags_use_property_attribute :
    TwitterCard.ToMetaTags ⟨"summary", "Example Title", "Desc", "", "", "", "", ""⟩ =
      "<meta property=\"twitter:card\" content=\"summary\" /><meta property=\"twitter:title\" content=\"Example Title\" /><meta property=\"twitter:description\" content=\"Desc\" />" := by
  rfl

/-- The video-movie value used in the documentation of
`opengraph/video_movie.go` (two actors, a director and a release date). -/
def vmExample : VideoMovie :=
  ⟨⟨"", "Example Movie", "https://www.example.com/video/movie/example-movie",
    "This is an example movie description.", "https://www.example.com/images/movie.jpg"⟩,
   "7200",
   ["https://www.example.com/actors/jane-doe", "https://www.example.com/actors/john-doe"],
   "https://www.example.com/directors/jane-director", "2024-09-15"⟩

/-- C7 (failing evaluation): the `video:actor` tags are emitted last, after
`video:director` and `video:release_date`, not at the position the
documentation and the specification give them (before `video:director`). -/
theorem video_movie_actor_tags_emitted_last :
    VideoMovie.ToMetaTags vmExample =
      [("og:type", "video.movie"),
       ("og:title", "Example Movie"),
       ("og:url", "https://www.example.com/video/movie/example-movie"),
       ("og:description", "This is an example movie description."),
       ("og:image", "https://www.example.com/images/movie.jpg"),
       ("video:duration", "7200"),
       ("video:director", "https://www.example.com/directors/jane-director"),
       ("video:release_date", "2024-09-15"),
       ("video:actor", "https://www.example.com/actors/jane-doe"),
       ("video:actor", "https://www.example.com/actors/john-doe")] := by
  rfl

/-- C9 (failing evaluation): when the external render step fails, the
render-to-string wrappers terminate the process (`log.Fatalf`) instead of
returning the error to the caller; the declared `(value, error)` result is
produced only on the success path, always with a nil error. -/
theorem toGoHTML_render_failure_is_fatal :
    TwitterCard.ToGoHTMLMetaTags ⟨"summary", "t", "d", "", "", "", "", ""⟩
        (Except.error "render failed") =
      GoCall.fatal "failed to convert to html: render failed" ∧
    BreadcrumbList.ToGoHTMLJsonLd ⟨"", "", []⟩ (Except.error "render failed") =
      GoCall.fatal "failed to convert to html: render failed" ∧
    TwitterCard.ToGoHTMLMetaTags ⟨"summary", "t", "d", "", "", "", "", ""⟩
        (Except.ok "<meta />") =
      GoCall.returns "<meta />" none :=
  ⟨rfl, rfl, rfl⟩

theorem twitterCard_ensureDefaults_card_ne (tc : TwitterCard) :
    tc.ensureDefaults.card ≠ "" := by
  simp only [TwitterCard.ensureDefaults]
  split_ifs with h <;> simp_all

/-- C10: an empty card type is defaulted to `"summary"`, and for every
card the emitted tag sequence starts with a `twitter:card` tag whose
content — the defaulted card type — is nonempty. -/
theorem twitter_card_first_tag_nonempty (tc : TwitterCard) :
    (tc.card = "" → tc.ensureDefaults.card = "summary") ∧
    tc.ensureDefaults.card ≠ "" ∧
    tc.emittedTags.head? = some ("twitter:card", tc.ensureDefaults.card) := by
  refine ⟨?_, twitterCard_ensureDefaults_card_ne tc, ?_⟩
  · intro h
    simp [TwitterCard.ensureDefaults, h]
  · have hcard := twitterCard_ensureDefaults_card_ne tc
    simp [TwitterCard.emittedTags, TwitterCard.metaTags, List.filter_cons, hcard]

/-- C10 (witness): the theorem applied to a card with an empty type. -/
theorem twitter_card_first_tag_nonempty_witness :
    (TwitterCard.ensureDefaults ⟨"", "t", "d", "", "", "", "", ""⟩).card = "summary" ∧
    (TwitterCard.ensureDefaults ⟨"", "t", "d", "", "", "", "", ""⟩).card ≠ "" ∧
    (TwitterCard.emittedTags ⟨"", "t", "d", "", "", "", "", ""⟩).head? =
      some ("twitter:card", (TwitterCard.ensureDefaults ⟨"", "t", "d", "", "", "", "", ""⟩).card) :=
  ⟨(twitter_card_first_tag_nonempty _).1 rfl,
   (twitter_card_first_tag_nonempty _).2.1,
   (twitter_card_first_tag_nonempty _).2.2⟩

/-- C5: variant gating of the Twitter serializer — an `app` card never
emits `twitter:creator` (creator is reserved to the two summary variants),
a `summary` card never emits `twitter:app:id:iphone` (reserved to the app
variant), and any card other than `player` never emits `twitter:player`. -/
theorem twittercard_variant_gating (tc : TwitterCard) :
    (tc.card = "app" →
      (tc.emittedTags.all fun tag => tag.1 != "twitter:creator") = true) ∧
    (tc.card = "summary" →
      (tc.emittedTags.all fun tag => tag.1 != "twitter:app:id:iphone") = true) ∧
    (tc.card ≠ "player" →
      (tc.emittedTags.all fun tag => tag.1 != "twitter:player") = true) := by
  refine ⟨?_, ?_, ?_⟩
  · intro h
    have hfix : tc.ensureDefaults = tc := by simp [TwitterCard.ensureDefaults, h]
    rw [TwitterCard.emittedTags, hfix, List.all_eq_true]
    intro tag htag
    have hmem := List.mem_of_mem_filter htag
    clear htag
    simp only [TwitterCard.metaTags, h, List.mem_append, List.mem_cons,
      List.not_mem_nil, or_false] at hmem
    split_ifs at hmem <;> casesm* _ ∨ _ <;>
      first
        | (rw [hmem]; decide)
        | simp_all
  · intro h
    have hfix : tc.ensureDefaults = tc := by simp [TwitterCard.ensureDefaults, h]
    rw [TwitterCard.emittedTags, hfix, List.all_eq_true]
    intro tag htag
    have hmem := List.mem_of_mem_filter htag
    clear htag
    simp only [TwitterCard.metaTags, h, List.mem_append, List.mem_cons,
      List.not_mem_nil, or_false] at hmem
    split_ifs at hmem <;> casesm* _ ∨ _ <;>
      first
        | (rw [hmem]; decide)
        | simp_all
  · intro h
    have hplayer : tc.ensureDefaults.card ≠ "player" := by
      simp only [TwitterCard.ensureDefaults]
      split_ifs <;> simp_all
    rw [TwitterCard.emittedTags, List.all_eq_true]
    intro tag htag
    have hmem := List.mem_of_mem_filter htag
    clear htag
    simp only [TwitterCard.metaTags, List.mem_append, List.mem_cons,
      List.not_mem_nil, or_false] at hmem
    split_ifs at hmem <;> casesm* _ ∨ _ <;>
      first
        | (rw [hmem]; decide)
        | simp_all

/-- C5 (witness): the theorem applied to an app card with a nonempty
creator, to a summary card with a nonempty app id, and to a summary card
with a nonempty player URL. -/
theorem twittercard_variant_gating_witness :
    ((TwitterCard.emittedTags ⟨"app", "T", "D", "", "", "@creator", "123", ""⟩).all
      fun tag => tag.1 != "twitter:creator") = true ∧
    ((TwitterCard.emittedTags ⟨"summary", "T", "D", "", "", "", "123", ""⟩).all
      fun tag => tag.1 != "twitter:app:id:iphone") = true ∧
    ((TwitterCard.emittedTags ⟨"summary", "T", "D", "", "", "", "", "https://p.example"⟩).all
      fun tag => tag.1 != "twitter:player") = true :=
  ⟨(twittercard_variant_gating _).1 rfl,
   (twittercard_variant_gating _).2.1 rfl,
   (twittercard_variant_gating _).2.2 (by decide)⟩

/-- A navigation element with a two-item list whose items carry non-empty
names and the `"ListItem"` discriminator (the documentation example of
`sitenavigationelement.go`). -/
def sneExample : SiteNavigationElement :=
  ⟨"https://schema.org", "SiteNavigationElement", "Main Navigation",
   "https://www.example.com", 1, "",
   some ⟨"https://schema.org", "ItemList",
     [⟨"ListItem", "Home", "https://www.example.com", 1⟩,
      ⟨"ListItem", "About", "https://www.example.com/about", 2⟩]⟩⟩

/-- C8: the sitemap round trip is lossy.  For every element with a present
item list, the export writes one `url` entry per item carrying only the
item's URL (plus the constant priority), and importing that file back yields
an item list in which every item has an empty name, the constant
`"SiteNavigationElement"` discriminator, and a position assigned
sequentially from 1 in file order; on the documentation example (non-empty
names, `"ListItem"` discriminators) the round trip therefore does not
reproduce the original element. -/
theorem sitemap_roundtrip_lossy :
    (∀ (s : SiteNavigationElement) (il : ItemList), s.itemList = some il →
      s.ToSitemapFile =
        Except.ok ⟨"http://www.sitemaps.org/schemas/sitemap/0.9",
          il.itemListElement.map fun item => ⟨item.url, "0.5"⟩⟩ ∧
      ∀ xml : XMLSitemap,
        (s.FromSitemapFile xml).itemList =
          some ⟨"https://schema.org", "ItemList",
            xml.urls.enum.map fun pr =>
              ⟨"SiteNavigationElement", "", pr.2.loc, (pr.1 : Int) + 1⟩⟩) ∧
    sneExample.ToSitemapFile =
      Except.ok ⟨"http://www.sitemaps.org/schemas/sitemap/0.9",
        [⟨"https://www.example.com", "0.5"⟩, ⟨"https://www.example.com/about", "0.5"⟩]⟩ ∧
    sneExample.FromSitemapFile
        ⟨"http://www.sitemaps.org/schemas/sitemap/0.9",
         [⟨"https://www.example.com", "0.5"⟩, ⟨"https://www.example.com/about", "0.5"⟩]⟩ ≠
      sneExample := by
  refine ⟨?_, rfl, ?_⟩
  · intro s il h
    refine ⟨?_, fun xml => rfl⟩
    simp [SiteNavigationElement.ToSitemapFile, h]
  · decide

/-- C8 (witness): the universally-quantified part of the theorem applied to
the documentation example. -/
theorem sitemap_roundtrip_lossy_witness :
    sneExample.ToSitemapFile =
      Except.ok ⟨"http://www.sitemaps.org/schemas/sitemap/0.9",
        [⟨"https://www.example.com", "0.5"⟩, ⟨"https://www.example.com/about", "0.5"⟩]⟩ ∧
    (sneExample.FromSitemapFile
        ⟨"http://www.sitemaps.org/schemas/sitemap/0.9",
         [⟨"https://www.example.com", "0.5"⟩,
          ⟨"https://www.example.com/about", "0.5"⟩]⟩).itemList =
      some ⟨"https://schema.org", "ItemList",
        [⟨"SiteNavigationElement", "", "https://www.example.com", 1⟩,
         ⟨"SiteNavigationElement", "", "https://www.example.com/about", 2⟩]⟩ := by
  have h := sitemap_roundtrip_lossy.1 sneExample
    ⟨"https://schema.org", "ItemList",
      [⟨"ListItem", "Home", "https://www.example.com", 1⟩,
       ⟨"ListItem", "About", "https://www.example.com/about", 2⟩]⟩ rfl
  exact ⟨h.1, h.2 _⟩

/-- C3: breadcrumb derivation matches the specification.  For every parsed
URL the construction returns exactly the specified list — `Home` root item
`(position 1, scheme://host)` first, then (only when the trimmed path is
nonempty) one item per segment with positions incrementing from 2,
title-cased name and cumulative URL; a parse error is propagated as an
error; and `toTitle` maps only the first rune of a segment. -/
theorem breadcrumb_from_url_spec (p : ParsedURL) (e : String) :
    createBreadcrumbListFromURL (Except.ok p) = Except.ok (breadcrumbListSpec p) ∧
    createBreadcrumbListFromURL (Except.error e) =
      Except.error ("[createBreadcrumbListFromURL] invalid URL: " ++ e) ∧
    (∀ (c : Char) (rest : List Char),
      toTitle (String.mk (c :: rest)) = String.mk (unicodeToTitle c :: rest)) := by
  refine ⟨?_, rfl, fun c rest => rfl⟩
  simp only [createBreadcrumbListFromURL, breadcrumbListSpec]
  by_cases htr : goTrim p.path '/' = ""
  · rw [htr]
    simp [goSplit, splitCharList]
  · have hne : (goTrim p.path '/').toList ≠ [] :=
      fun hh => htr ((goTrim_eq_empty_iff p.path '/').2 hh)
    have hhead := goTrim_head_ne p.path '/' hne
    have hheadI := goSplit_headI_ne_empty (goTrim p.path '/') '/' hne hhead
    have hlen : (goSplit (goTrim p.path '/') '/').length > 0 :=
      List.length_pos.mpr (goSplit_ne_nil (goTrim p.path '/') '/')
    rw [if_pos (And.intro hlen hheadI), if_neg htr]
    simp

end Teseo
